import Mathlib

/-!
Verification of the cloud-nettest-framework layered correlation engine.

Shallow embedding of the pure analysis core:
  - `PerformanceGrader.grade_latency` and friends (src/cnf/formatter.py)
  - `parse_ping_output` (src/cnf/tests/latency.py)
  - `correlate_tcp_to_http_phases`, `correlate_mtr_to_tcp`,
    `generate_layered_analysis` (src/cnf/tests/layered_correlation.py)

Millisecond quantities (Python floats) are modelled as exact rationals.
Python's `round(x, n)` (round-half-to-even at n decimal digits) is modelled
by `roundTo`. Python dicts with a fixed key set are modelled as structures;
dict fields read via `dict.get(key, default)` are modelled as `Option`
fields read with `Option.getD`. Dicts whose key set evolves at run time
(the phase buckets, the per-phase retransmission counters) are modelled as
association lists in insertion order.
-/

namespace CNF

/-- Round-half-to-even to the nearest integer, as Python's builtin `round`. -/
def roundHalfEven (y : ℚ) : ℤ :=
  let n : ℤ := ⌊y⌋
  let f : ℚ := y - n
  if f < 1 / 2 then n
  else if 1 / 2 < f then n + 1
  else if n % 2 = 0 then n else n + 1

/-- Python `round(x, d)`: round-half-to-even at `d` decimal digits. -/
def roundTo (d : ℕ) (x : ℚ) : ℚ :=
  (roundHalfEven (x * 10 ^ d) : ℚ) / 10 ^ d

namespace PerformanceGrader

/-- Embeds `PerformanceGrader.grade_latency` (src/cnf/formatter.py lines
23-64). Returns the `(grade, emoji, color)` triple; any distance string
other than "same-region" and "cross-country" uses the regional table. -/
def grade_latency (latency_ms : ℚ) (distance : String) : String × String × String :=
  if distance = "same-region" then
    if latency_ms < 2 then ("A+", "🥇", "bright_green")
    else if latency_ms < 5 then ("A", "🥈", "green")
    else if latency_ms < 15 then ("B", "🥉", "yellow")
    else if latency_ms < 30 then ("C", "⚠️", "orange3")
    else ("D", "❌", "red")
  else if distance = "cross-country" then
    if latency_ms < 50 then ("A+", "🥇", "bright_green")
    else if latency_ms < 70 then ("A", "🥈", "green")
    else if latency_ms < 100 then ("B", "🥉", "yellow")
    else if latency_ms < 150 then ("C", "⚠️", "orange3")
    else ("D", "❌", "red")
  else
    if latency_ms < 20 then ("A+", "🥇", "bright_green")
    else if latency_ms < 40 then ("A", "🥈", "green")
    else if latency_ms < 70 then ("B", "🥉", "yellow")
    else if latency_ms < 100 then ("C", "⚠️", "orange3")
    else ("D", "❌", "red")

end PerformanceGrader

/-- The spec's threshold table for one distance class: ordered
`(upper bound, grade)` rows, upper-bound exclusive (spec §4.1). -/
def latencyTable (distance : String) : List (ℚ × String) :=
  if distance = "same-region" then
    [(2, "A+"), (5, "A"), (15, "B"), (30, "C")]
  else if distance = "cross-country" then
    [(50, "A+"), (70, "A"), (100, "B"), (150, "C")]
  else
    [(20, "A+"), (40, "A"), (70, "B"), (100, "C")]

/-- The latency grade as the spec words it: the first table row whose
(exclusive) upper bound the latency is below, else "D". -/
def gradeLatencySpec (latency_ms : ℚ) (distance : String) : String :=
  (((latencyTable distance).find? (fun row => latency_ms < row.1)).map Prod.snd).getD "D"

/-- Result record of `parse_ping_output` (src/cnf/tests/latency.py lines
12-40): the `stats` dict. -/
structure PingStats where
  packets_sent : ℕ
  packets_received : ℕ
  packet_loss_pct : ℚ
  min_ms : Option ℚ
  avg_ms : Option ℚ
  max_ms : Option ℚ
  stddev_ms : Option ℚ
deriving DecidableEq, Repr

/-- Embeds `parse_ping_output` (src/cnf/tests/latency.py lines 12-40).
The two `re.search` calls are abstracted as the optional captured groups
they yield: `pktMatch` is the `(transmitted, received)` pair from the
first regex, `rttMatch` the `(min, avg, max, stddev)` quadruple from the
second; `none` means the regex did not match. The arithmetic on the
captures is translated verbatim: loss defaults to 100.0 and is only
recomputed when a match gives `packets_sent > 0`. -/
def parse_ping_output (pktMatch : Option (ℕ × ℕ)) (rttMatch : Option (ℚ × ℚ × ℚ × ℚ)) :
    PingStats :=
  let s0 : PingStats :=
    { packets_sent := 0, packets_received := 0, packet_loss_pct := 100,
      min_ms := none, avg_ms := none, max_ms := none, stddev_ms := none }
  let s1 : PingStats :=
    match pktMatch with
    | some (sent, recv) =>
        let s := { s0 with packets_sent := sent, packets_received := recv }
        if 0 < sent then
          { s with packet_loss_pct := ((sent : ℚ) - (recv : ℚ)) / (sent : ℚ) * 100 }
        else s
    | none => s0
  match rttMatch with
  | some (mn, av, mx, sd) =>
      { s1 with min_ms := some mn, avg_ms := some av, max_ms := some mx, stddev_ms := some sd }
  | none => s1

/-- One MTR hop record as consumed by `correlate_mtr_to_tcp`; every field
is read through `dict.get`, hence optional. -/
structure MtrHop where
  hop : Option ℕ
  host : Option String
  avg_ms : Option ℚ
  loss_pct : Option ℚ
deriving DecidableEq, Repr

/-- One entry of `contributing_hops` (layered_correlation.py lines 286-291). -/
structure ContribHop where
  hop_number : Option ℕ
  ip : Option String
  latency_ms : Option ℚ
  loss_pct : ℚ
deriving DecidableEq, Repr

/-- Result record of `correlate_mtr_to_tcp` (layered_correlation.py lines
260-267). The Python key `mtr_predicted_rtt` etc. keep their names. -/
structure MtrTcpCorrelation where
  mtr_predicted_rtt : ℚ
  tcp_actual_rtt : ℚ
  variance_ms : ℚ
  variance_percentage : ℚ
  contributing_hops : List ContribHop
  status : String
deriving DecidableEq, Repr

/-- The `contributing_hops` entry built for one significant hop
(layered_correlation.py lines 286-291). -/
def mkContrib (hop : MtrHop) : ContribHop :=
  { hop_number := hop.hop, ip := hop.host,
    latency_ms := hop.avg_ms, loss_pct := hop.loss_pct.getD 0 }

/-- Embeds `correlate_mtr_to_tcp` (layered_correlation.py lines 242-301).
The SSH `host` argument is unused by the computation and omitted. The
contributing-hop loop (lines 284-291) is translated as the fold it is. -/
def correlate_mtr_to_tcp (mtr_hops : List MtrHop) (tcp_handshake_ms : ℚ) :
    MtrTcpCorrelation :=
  let c0 : MtrTcpCorrelation :=
    { mtr_predicted_rtt := 0, tcp_actual_rtt := tcp_handshake_ms,
      variance_ms := 0, variance_percentage := 0,
      contributing_hops := [], status := "unknown" }
  match mtr_hops.getLast? with
  | some last_hop =>
      let mtr_predicted : ℚ := last_hop.avg_ms.getD 0 * 2
      let c1 := { c0 with
        mtr_predicted_rtt := roundTo 2 mtr_predicted,
        variance_ms := roundTo 2 (tcp_handshake_ms - mtr_predicted) }
      let c2 :=
        if 0 < mtr_predicted then
          { c1 with variance_percentage := roundTo 1 (c1.variance_ms / mtr_predicted * 100) }
        else c1
      let c3 := { c2 with
        contributing_hops :=
          mtr_hops.foldl
            (fun (acc : List ContribHop) (hop : MtrHop) =>
              if 5 < hop.avg_ms.getD 0 then acc ++ [mkContrib hop] else acc)
            [] }
      { c3 with status := "success" }
  | none => { c0 with status := "no_mtr_data" }

/-- One timestamped TCP event as consumed by `correlate_tcp_to_http_phases`.
`window_size` and `length` are optional dict fields (the loop tests their
presence before using them); the identification fields (src/dst, flags,
seq/ack) are carried along unread by the correlator and omitted here. -/
structure TcpEvent where
  relative_time_ms : ℚ
  is_retransmission : Bool
  window_size : Option ℕ
  length : Option ℕ
deriving DecidableEq, Repr

/-- The `http_phases` argument of `correlate_tcp_to_http_phases`: every
duration is read via `http_phases.get(key, 0)`, hence optional. -/
structure HttpPhases where
  dns_ms : Option ℚ
  tcp_handshake_ms : Option ℚ
  tls_handshake_ms : Option ℚ
  server_process_ms : Option ℚ
  download_ms : Option ℚ
deriving DecidableEq, Repr

/-- Cumulative boundary `dns_end` (layered_correlation.py line 79). -/
def dnsEnd (p : HttpPhases) : ℚ := p.dns_ms.getD 0

/-- Cumulative boundary `tcp_end` (line 80). -/
def tcpEnd (p : HttpPhases) : ℚ := dnsEnd p + p.tcp_handshake_ms.getD 0

/-- Cumulative boundary `tls_end` (line 81). -/
def tlsEnd (p : HttpPhases) : ℚ := tcpEnd p + p.tls_handshake_ms.getD 0

/-- Cumulative boundary `server_end` (line 82). -/
def serverEnd (p : HttpPhases) : ℚ := tlsEnd p + p.server_process_ms.getD 0

/-- Cumulative boundary `download_end` (line 83). -/
def downloadEnd (p : HttpPhases) : ℚ := serverEnd p + p.download_ms.getD 0

/-- The four phase buckets the correlator maintains (dict keys of
`correlation["phases"]`, lines 45-62). There is no DNS bucket. -/
inductive Phase
  | tcp_handshake
  | tls_negotiation
  | server_processing
  | content_download
deriving DecidableEq, Repr

/-- The bucket's dict key. -/
def Phase.name : Phase → String
  | .tcp_handshake => "tcp_handshake"
  | .tls_negotiation => "tls_negotiation"
  | .server_processing => "server_processing"
  | .content_download => "content_download"

/-- The phase-classification chain of lines 90-99: the first boundary the
event time does not exceed picks the phase; beyond `download_end` the
event is dropped (`continue`). -/
def assignPhase (p : HttpPhases) (t : ℚ) : Option Phase :=
  if t ≤ tcpEnd p then some .tcp_handshake
  else if t ≤ tlsEnd p then some .tls_negotiation
  else if t ≤ serverEnd p then some .server_processing
  else if t ≤ downloadEnd p then some .content_download
  else none

/-- The buckets with their cumulative boundaries, in the fixed source
order; `assignPhase` is first-match search over this list. -/
def phaseBoundaries (p : HttpPhases) : List (Phase × ℚ) :=
  [(.tcp_handshake, tcpEnd p), (.tls_negotiation, tlsEnd p),
   (.server_processing, serverEnd p), (.content_download, downloadEnd p)]

/-- Value part of one `correlation["phases"]` bucket. `event_count`,
`retransmissions` and `retransmission_rate` are `none` until the
statistics pass of lines 122-130 sets them (on the early `no_tcp_data`
return those dict keys are absent). -/
structure PhaseData where
  duration_ms : ℚ
  tcp_events : List TcpEvent
  event_count : Option ℕ
  retransmissions : Option ℕ
  retransmission_rate : Option ℚ
deriving DecidableEq, Repr

/-- One `window_evolution` entry (lines 112-116). -/
structure WindowPoint where
  time_ms : ℚ
  phase : String
  window_size : ℕ
deriving DecidableEq, Repr

/-- Result record of `correlate_tcp_to_http_phases` (lines 44-67).
`phases` and `retransmissions_by_phase` are dicts modelled as association
lists in insertion order. -/
structure Correlation where
  phases : List (String × PhaseData)
  retransmissions_by_phase : List (String × ℕ)
  window_evolution : List WindowPoint
  total_bytes : ℕ
  status : String
deriving DecidableEq, Repr

/-- First-match lookup in an association list (Python `d[k]` / `d.get(k)`). -/
def lookupAssoc : List (String × α) → String → Option α
  | [], _ => none
  | kv :: rest, k => if kv.1 = k then some kv.2 else lookupAssoc rest k

/-- Update the value stored under `k`, keeping key order (`d[k] = f d[k]`). -/
def updateAssoc (k : String) (f : α → α) : List (String × α) → List (String × α)
  | [] => []
  | kv :: rest =>
      if kv.1 = k then (kv.1, f kv.2) :: rest else kv :: updateAssoc k f rest

/-- `d[k] = d.get(k, 0) + 1` with Python-dict insertion order: a new key
is appended at the end (lines 106-108). -/
def bumpAssoc (k : String) : List (String × ℕ) → List (String × ℕ)
  | [] => [(k, 1)]
  | kv :: rest =>
      if kv.1 = k then (kv.1, kv.2 + 1) :: rest else kv :: bumpAssoc k rest

/-- The initial `correlation["phases"]` dict literal (lines 45-62). -/
def initPhases (p : HttpPhases) : List (String × PhaseData) :=
  [("tcp_handshake",
    { duration_ms := p.tcp_handshake_ms.getD 0, tcp_events := [],
      event_count := none, retransmissions := none, retransmission_rate := none }),
   ("tls_negotiation",
    { duration_ms := p.tls_handshake_ms.getD 0, tcp_events := [],
      event_count := none, retransmissions := none, retransmission_rate := none }),
   ("server_processing",
    { duration_ms := p.server_process_ms.getD 0, tcp_events := [],
      event_count := none, retransmissions := none, retransmission_rate := none }),
   ("content_download",
    { duration_ms := p.download_ms.getD 0, tcp_events := [],
      event_count := none, retransmissions := none, retransmission_rate := none })]

/-- The body of the `for event in tcp_events` loop (lines 86-120) for a
single event: classify, append to the bucket, count a retransmission,
record a window point, add the byte length. -/
def stepEvent (p : HttpPhases) (c : Correlation) (e : TcpEvent) : Correlation :=
  match assignPhase p e.relative_time_ms with
  | none => c
  | some ph =>
      let c1 := { c with
        phases := updateAssoc ph.name
          (fun d => { d with tcp_events := d.tcp_events ++ [e] }) c.phases }
      let c2 :=
        if e.is_retransmission then
          { c1 with retransmissions_by_phase := bumpAssoc ph.name c1.retransmissions_by_phase }
        else c1
      let c3 :=
        match e.window_size with
        | some w =>
            { c2 with window_evolution :=
                c2.window_evolution ++
                  [{ time_ms := e.relative_time_ms, phase := ph.name, window_size := w }] }
        | none => c2
      match e.length with
      | some len => { c3 with total_bytes := c3.total_bytes + len }
      | none => c3

/-- The per-phase statistics pass (lines 122-130): set `event_count`,
`retransmissions` and `retransmission_rate` (0 when the bucket is empty). -/
def computeStats (retrans : List (String × ℕ)) (entry : String × PhaseData) :
    String × PhaseData :=
  let events := entry.2.tcp_events
  let r := (lookupAssoc retrans entry.1).getD 0
  (entry.1,
    { entry.2 with
      event_count := some events.length,
      retransmissions := some r,
      retransmission_rate :=
        some (if events.length ≠ 0 then (r : ℚ) / (events.length : ℚ) * 100 else 0) })

/-- Embeds `correlate_tcp_to_http_phases` (layered_correlation.py lines
18-138). The SSH session and `_extract_tcp_timeline` call are external
collaborators: the extracted event list is taken as the argument. With no
events the function returns early with status "no_tcp_data" (lines 74-76);
otherwise it buckets every event and runs the statistics pass, ending with
status "success". -/
def correlate_tcp_to_http_phases (p : HttpPhases) (tcp_events : List TcpEvent) :
    Correlation :=
  let init : Correlation :=
    { phases := initPhases p, retransmissions_by_phase := [],
      window_evolution := [], total_bytes := 0, status := "unknown" }
  match tcp_events with
  | [] => { init with status := "no_tcp_data" }
  | _ :: _ =>
      let c := tcp_events.foldl (stepEvent p) init
      { c with phases := c.phases.map (computeStats c.retransmissions_by_phase),
               status := "success" }

/-- What the statistics pass of lines 122-130 does to the bucket stored
under key `k`: closed form of `computeStats` at that key. -/
def statsify (retrans : List (String × ℕ)) (k : String) (d : PhaseData) : PhaseData :=
  { d with
    event_count := some d.tcp_events.length,
    retransmissions := some ((lookupAssoc retrans k).getD 0),
    retransmission_rate :=
      some (if d.tcp_events.length ≠ 0 then
              (((lookupAssoc retrans k).getD 0 : ℚ)) / (d.tcp_events.length : ℚ) * 100
            else 0) }

/-- The key list of the `phases` dict, in insertion order. -/
def phaseKeys : List String :=
  ["tcp_handshake", "tls_negotiation", "server_processing", "content_download"]

/-- The `relative_time_ms → bucket key` classification of one event. -/
def assignedKey (p : HttpPhases) (e : TcpEvent) : Option String :=
  (assignPhase p e.relative_time_ms).map Phase.name

/-- The `ping_result` input of `generate_layered_analysis`: fields read
via `dict.get` are optional. -/
structure PingResultIn where
  success : Bool
  avg_ms : Option ℚ
  min_ms : Option ℚ
  max_ms : Option ℚ
  packet_loss_pct : Option ℚ
deriving DecidableEq, Repr

/-- The `summary` sub-dict of the `mtr_result` input. -/
structure MtrSummary where
  hop_count : Option ℕ
  path_quality : Option String
  max_hop_latency : Option ℚ
  problematic_hops : Option (List String)
deriving DecidableEq, Repr

/-- The `mtr_result` input of `generate_layered_analysis`. -/
structure MtrResultIn where
  status : String
  summary : Option MtrSummary
deriving DecidableEq, Repr

/-- The `connection_metrics` sub-dict of the `packet_analysis` input. -/
structure ConnMetrics where
  quality_score : Option String
  retransmission_rate_pct : Option ℚ
  connection_success_rate : Option ℚ
  retransmissions : Option ℕ
  duplicate_acks : Option ℕ
  out_of_order : Option ℕ
deriving DecidableEq, Repr

/-- The `packet_analysis` input of `generate_layered_analysis`. -/
structure PacketAnalysisIn where
  status : String
  packet_count : Option ℕ
  connection_metrics : Option ConnMetrics
deriving DecidableEq, Repr

/-- One per-phase statistics record of the `http_result` input
(`{"avg": ...}` is the only field the aggregator reads). -/
structure StatEntry where
  avg : Option ℚ
deriving DecidableEq, Repr

/-- The `statistics` sub-dict of the `http_result` input. -/
structure HttpStatistics where
  total : Option StatEntry
  dns_lookup : Option StatEntry
  tcp_handshake : Option StatEntry
  tls_handshake : Option StatEntry
  server_processing : Option StatEntry
  download : Option StatEntry
deriving DecidableEq, Repr

/-- The `http_result` input of `generate_layered_analysis`. -/
structure HttpResultIn where
  status : String
  statistics : Option HttpStatistics
deriving DecidableEq, Repr

/-- `analysis["layer3"]["icmp_latency"]` (lines 350-356). -/
structure IcmpLatency where
  avg_ms : Option ℚ
  min_ms : Option ℚ
  max_ms : Option ℚ
  jitter_ms : ℚ
  packet_loss_pct : ℚ
deriving DecidableEq, Repr

/-- `analysis["layer3"]["path_analysis"]` (lines 368-373). -/
structure PathAnalysis where
  hop_count : Option ℕ
  path_quality : Option String
  max_hop_latency : Option ℚ
  problematic_hops : List String
deriving DecidableEq, Repr

/-- `analysis["layer4"]["tcp_quality"]` (lines 378-382). -/
structure TcpQuality where
  quality_score : Option String
  retransmission_rate : Option ℚ
  connection_success_rate : Option ℚ
deriving DecidableEq, Repr

/-- `analysis["layer4"]["connection_metrics"]` (lines 384-389). -/
structure ConnMetricsOut where
  total_packets : ℕ
  retransmissions : ℕ
  duplicate_acks : ℕ
  out_of_order : ℕ
deriving DecidableEq, Repr

/-- `analysis["layer7"]["http_performance"]` (lines 404-411). -/
structure HttpPerformance where
  total_time_ms : Option ℚ
  dns_ms : Option ℚ
  tcp_handshake_ms : Option ℚ
  tls_handshake_ms : Option ℚ
  ttfb_ms : Option ℚ
  download_ms : Option ℚ
deriving DecidableEq, Repr

/-- `analysis["layer7"]["phase_breakdown"]` (lines 413-419). -/
structure PhaseBreakdown where
  dns_pct : ℚ
  tcp_pct : ℚ
  tls_pct : ℚ
  server_pct : ℚ
  download_pct : ℚ
deriving DecidableEq, Repr

/-- The `layer3` section of the analysis record; empty sub-dicts of the
initial literal are modelled as `none`. -/
structure Layer3 where
  icmp_latency : Option IcmpLatency
  path_analysis : Option PathAnalysis
  quality : String
deriving DecidableEq, Repr

/-- The `layer4` section of the analysis record. -/
structure Layer4 where
  tcp_quality : Option TcpQuality
  connection_metrics : Option ConnMetricsOut
  quality : String
deriving DecidableEq, Repr

/-- The `layer7` section of the analysis record. -/
structure Layer7 where
  http_performance : Option HttpPerformance
  phase_breakdown : Option PhaseBreakdown
  quality : String
deriving DecidableEq, Repr

/-- One entry of `analysis["insights"]` (the appended dict literals). -/
structure Insight where
  type : String
  layers : String
  severity : String
  message : String
deriving DecidableEq, Repr

/-- The `correlations` section: `l3_l4` holds at most its `finding` key,
`l4_l7` the pass-through TCP/HTTP correlation, `end_to_end` its `summary`. -/
structure Correlations where
  l3_l4_finding : Option String
  l4_l7 : Option Correlation
  end_to_end_summary : Option String
deriving DecidableEq, Repr

/-- The full analysis record returned by `generate_layered_analysis`
(dict literal of lines 323-346). -/
structure LayeredAnalysis where
  layer3 : Layer3
  layer4 : Layer4
  layer7 : Layer7
  correlations : Correlations
  insights : List Insight
  overall_grade : String
deriving DecidableEq, Repr

/-- The overall-grade chain of lines 466-473: vacuous `all` over the
non-unknown layer qualities gives "A+", else any "degraded" gives "C",
else "B". -/
def overallGrade (q3 q4 q7 : String) : String :=
  if ([q3, q4, q7].filter (fun q => q != "unknown")).all (fun q => q == "excellent") then
    "A+"
  else if [q3, q4, q7].contains "degraded" then "C"
  else "B"

/-- The `end_to_end` summary set alongside the grade (lines 468, 471, 474). -/
def endToEndSummary (q3 q4 q7 : String) : String :=
  if ([q3, q4, q7].filter (fun q => q != "unknown")).all (fun q => q == "excellent") then
    "Excellent performance across all layers"
  else if [q3, q4, q7].contains "degraded" then
    "Performance degraded at one or more layers"
  else "Good overall performance"

/-- Embeds `generate_layered_analysis` (layered_correlation.py lines
304-476). Line 442 of the source reads `elif ... == "excellent" but ... ==
"degraded":`, where `but` is not a Python operator; the evident intended
conjunction `and` is modelled here. -/
def generate_layered_analysis (ping_result : Option PingResultIn)
    (mtr_result : Option MtrResultIn) (http_result : Option HttpResultIn)
    (packet_analysis : Option PacketAnalysisIn)
    (tcp_http_correlation : Option Correlation) : LayeredAnalysis :=
  -- L3 analysis (lines 349-364)
  let l3pair : Option IcmpLatency × String :=
    match ping_result with
    | some r =>
        if r.success then
          (some { avg_ms := r.avg_ms, min_ms := r.min_ms, max_ms := r.max_ms,
                  jitter_ms := r.max_ms.getD 0 - r.min_ms.getD 0,
                  packet_loss_pct := r.packet_loss_pct.getD 0 },
           if r.packet_loss_pct.getD 0 = 0 ∧ r.avg_ms.getD 999 < 20 then "excellent"
           else if r.packet_loss_pct.getD 0 < 1 ∧ r.avg_ms.getD 999 < 50 then "good"
           else "degraded")
        else (none, "unknown")
    | none => (none, "unknown")
  let pathAnal : Option PathAnalysis :=
    match mtr_result with
    | some m =>
        if m.status == "success" then
          some { hop_count := m.summary.bind (fun s => s.hop_count),
                 path_quality := m.summary.bind (fun s => s.path_quality),
                 max_hop_latency := m.summary.bind (fun s => s.max_hop_latency),
                 problematic_hops := (m.summary.bind (fun s => s.problematic_hops)).getD [] }
        else none
    | none => none
  -- L4 analysis (lines 376-398)
  let l4triple : Option TcpQuality × Option ConnMetricsOut × String :=
    match packet_analysis with
    | some pa =>
        if pa.status == "success" then
          let cm := pa.connection_metrics
          let qs := (cm.bind (fun c => c.quality_score)).getD "unknown"
          (some { quality_score := cm.bind (fun c => c.quality_score),
                  retransmission_rate := cm.bind (fun c => c.retransmission_rate_pct),
                  connection_success_rate := cm.bind (fun c => c.connection_success_rate) },
           some { total_packets := pa.packet_count.getD 0,
                  retransmissions := (cm.bind (fun c => c.retransmissions)).getD 0,
                  duplicate_acks := (cm.bind (fun c => c.duplicate_acks)).getD 0,
                  out_of_order := (cm.bind (fun c => c.out_of_order)).getD 0 },
           if qs == "excellent" ∨ qs == "EXCELLENT" then "excellent"
           else if qs == "good" ∨ qs == "GOOD" then "good"
           else "degraded")
        else (none, none, "unknown")
    | none => (none, none, "unknown")
  -- L7 analysis (lines 401-428)
  let l7triple : Option HttpPerformance × Option PhaseBreakdown × String :=
    match http_result with
    | some h =>
        if h.status == "success" then
          let stats := h.statistics
          let avgOf : (HttpStatistics → Option StatEntry) → Option ℚ :=
            fun f => (stats.bind f).bind (fun s => s.avg)
          let totalD1 : ℚ := (avgOf (fun s => s.total)).getD 1
          (some { total_time_ms := avgOf (fun s => s.total),
                  dns_ms := avgOf (fun s => s.dns_lookup),
                  tcp_handshake_ms := avgOf (fun s => s.tcp_handshake),
                  tls_handshake_ms := avgOf (fun s => s.tls_handshake),
                  ttfb_ms := avgOf (fun s => s.server_processing),
                  download_ms := avgOf (fun s => s.download) },
           some { dns_pct := roundTo 1 ((avgOf (fun s => s.dns_lookup)).getD 0 / totalD1 * 100),
                  tcp_pct := roundTo 1 ((avgOf (fun s => s.tcp_handshake)).getD 0 / totalD1 * 100),
                  tls_pct := roundTo 1 ((avgOf (fun s => s.tls_handshake)).getD 0 / totalD1 * 100),
                  server_pct := roundTo 1 ((avgOf (fun s => s.server_processing)).getD 0 / totalD1 * 100),
                  download_pct := roundTo 1 ((avgOf (fun s => s.download)).getD 0 / totalD1 * 100) },
           let total_ms := (avgOf (fun s => s.total)).getD 999
           if total_ms < 100 then "excellent"
           else if total_ms < 500 then "good"
           else "degraded")
        else (none, none, "unknown")
    | none => (none, none, "unknown")
  let q3 := l3pair.2
  let q4 := l4triple.2.2
  let q7 := l7triple.2.2
  -- L3 → L4 correlation (lines 433-449)
  let l3l4 : Option String × List Insight :=
    if q3 != "unknown" ∧ q4 != "unknown" then
      if q3 == "degraded" ∧ q4 == "degraded" then
        (some "Path issues causing TCP degradation",
         [{ type := "correlation", layers := "L3→L4", severity := "high",
            message := "Network path quality is directly impacting TCP connection quality" }])
      else if q3 == "excellent" ∧ q4 == "degraded" then
        (some "TCP issues despite good path (endpoint problem?)",
         [{ type := "correlation", layers := "L3→L4", severity := "medium",
            message := "TCP degradation not explained by network path - investigate endpoint congestion" }])
      else (none, [])
    else (none, [])
  -- L4 → L7 correlation (lines 452-463)
  let l4l7Insights : List Insight :=
    match tcp_http_correlation with
    | some c =>
        let n := (lookupAssoc c.retransmissions_by_phase "tls_negotiation").getD 0
        if 0 < n then
          [{ type := "correlation", layers := "L4→L7", severity := "high",
             message := "TCP retransmissions during TLS handshake: "
               ++ toString n ++ " retransmissions" }]
        else []
    | none => []
  { layer3 := { icmp_latency := l3pair.1, path_analysis := pathAnal, quality := q3 },
    layer4 := { tcp_quality := l4triple.1, connection_metrics := l4triple.2.1, quality := q4 },
    layer7 := { http_performance := l7triple.1, phase_breakdown := l7triple.2.1, quality := q7 },
    correlations :=
      { l3_l4_finding := l3l4.1, l4_l7 := tcp_http_correlation,
        end_to_end_summary := some (endToEndSummary q3 q4 q7) },
    insights := l3l4.2 ++ l4l7Insights,
    overall_grade := overallGrade q3 q4 q7 }

/-- The spec's closed quality enumeration for one layer (spec §3). -/
inductive Quality
  | excellent
  | good
  | degraded
  | unknown
deriving DecidableEq, Repr, Fintype

/-- The string the source stores for each quality level. -/
def Quality.toStr : Quality → String
  | .excellent => "excellent"
  | .good => "good"
  | .degraded => "degraded"
  | .unknown => "unknown"

/-- The spec's overall-grade precedence (spec §4.4), evaluated over the
known (non-unknown) layers only: all known excellent gives "A+", else any
known layer degraded gives "C", else "B". -/
def overallGradeSpec (q3 q4 q7 : Quality) : String :=
  let known := [q3, q4, q7].filter (fun q => q != Quality.unknown)
  if known.all (fun q => q == Quality.excellent) then "A+"
  else if known.contains Quality.degraded then "C"
  else "B"

/-! ### Concrete inputs used by the spec's worked examples -/

/-- Spec §8 phase-duration example: dns 5, tcp 10, tls 15, server 20,
download 50 (total 100 ms). -/
def exPhases : HttpPhases := ⟨some 5, some 10, some 15, some 20, some 50⟩

/-- An event 12 ms into the request. -/
def exEvent12 : TcpEvent := ⟨12, false, none, none⟩

/-- An event 150 ms into the request, beyond the 100 ms total. -/
def exEvent150 : TcpEvent := ⟨150, false, none, none⟩

/-- Spec §8 MTR example hops with averages 1, 3, 8 ms. -/
def exHops : List MtrHop :=
  [⟨some 1, some "10.0.0.1", some 1, some 0⟩,
   ⟨some 2, some "10.0.0.2", some 3, some 0⟩,
   ⟨some 3, some "10.0.0.3", some 8, some 0⟩]

/-- A hop whose average latency (0.001 ms) is lost to 2-decimal rounding. -/
def exTinyHop : MtrHop := ⟨some 1, some "10.0.0.1", some (1 / 1000), some 0⟩

/-- A successful ping giving an excellent L3 layer (0% loss, 10 ms avg). -/
def exPing : PingResultIn := ⟨true, some 10, some 9, some 11, some 0⟩

/-- A successful packet analysis whose quality score "poor" grades the L4
layer degraded. -/
def exPacket : PacketAnalysisIn :=
  ⟨"success", some 100, some ⟨some "poor", some 5, some 99, some 3, some 1, some 0⟩⟩

/-! ### Association-list lemmas -/

theorem lookupAssoc_updateAssoc_self {α : Type} (k : String) (f : α → α) (l : List (String × α)) :
    lookupAssoc (updateAssoc k f l) k = (lookupAssoc l k).map f := by
  induction l with
  | nil => rfl
  | cons kv rest ih =>
      by_cases h : kv.1 = k
      · simp [updateAssoc, lookupAssoc, h]
      · simp [updateAssoc, lookupAssoc, h, ih]

theorem lookupAssoc_updateAssoc_ne {α : Type} {k k' : String} (h : k ≠ k') (f : α → α)
    (l : List (String × α)) :
    lookupAssoc (updateAssoc k' f l) k = lookupAssoc l k := by
  induction l with
  | nil => rfl
  | cons kv rest ih =>
      by_cases hk : kv.1 = k'
      · have hne : kv.1 ≠ k := by rw [hk]; exact fun hh => h hh.symm
        have hne' : k' ≠ k := fun he => hne (hk.trans he)
        simp [updateAssoc, lookupAssoc, hk, hne, hne']
      · by_cases hk2 : kv.1 = k
        · simp [updateAssoc, lookupAssoc, hk, hk2, h]
        · simp [updateAssoc, lookupAssoc, hk, hk2, ih]

theorem keys_updateAssoc {α : Type} (k : String) (f : α → α) (l : List (String × α)) :
    (updateAssoc k f l).map Prod.fst = l.map Prod.fst := by
  induction l with
  | nil => rfl
  | cons kv rest ih =>
      by_cases h : kv.1 = k <;> simp [updateAssoc, h, ih]

theorem lookupAssoc_mem_of_nodup {α : Type} {l : List (String × α)} {kv : String × α}
    (hnd : (l.map Prod.fst).Nodup) (hm : kv ∈ l) : lookupAssoc l kv.1 = some kv.2 := by
  induction l with
  | nil => cases hm
  | cons hd rest ih =>
      rcases List.mem_cons.1 hm with h | h
      · subst h
        simp [lookupAssoc]
      · have hnd' : (rest.map Prod.fst).Nodup := (List.nodup_cons.1 hnd).2
        have hne : hd.1 ≠ kv.1 := by
          intro he
          exact (List.nodup_cons.1 hnd).1 (he ▸ List.mem_map_of_mem Prod.fst h)
        simp [lookupAssoc, hne, ih hnd' h]

/-! ### Structure of the phase-correlator loop -/

theorem stepEvent_phases (p : HttpPhases) (c : Correlation) (e : TcpEvent) :
    (stepEvent p c e).phases =
      match assignPhase p e.relative_time_ms with
      | none => c.phases
      | some ph =>
          updateAssoc ph.name (fun d => { d with tcp_events := d.tcp_events ++ [e] }) c.phases := by
  unfold stepEvent
  cases assignPhase p e.relative_time_ms with
  | none => rfl
  | some ph =>
      cases e.is_retransmission <;> cases hw : e.window_size <;> cases hl : e.length <;>
        simp [hw, hl]

theorem foldl_stepEvent_keys (p : HttpPhases) (events : List TcpEvent) (c : Correlation) :
    ((events.foldl (stepEvent p) c).phases).map Prod.fst = c.phases.map Prod.fst := by
  induction events generalizing c with
  | nil => rfl
  | cons e es ih =>
      rw [List.foldl_cons, ih]
      rw [stepEvent_phases]
      cases assignPhase p e.relative_time_ms with
      | none => rfl
      | some ph => exact keys_updateAssoc ph.name _ c.phases

theorem lookupAssoc_foldl_stepEvent (p : HttpPhases) (k : String) (events : List TcpEvent)
    (c : Correlation) :
    lookupAssoc ((events.foldl (stepEvent p) c).phases) k =
      (lookupAssoc c.phases k).map
        (fun d => { d with
          tcp_events := d.tcp_events ++ events.filter (fun e => assignedKey p e = some k) }) := by
  induction events generalizing c with
  | nil =>
      cases h : lookupAssoc c.phases k <;> simp [h]
  | cons e es ih =>
      rw [List.foldl_cons, ih]
      by_cases hk : assignedKey p e = some k
      · have hfil : (e :: es).filter (fun e => assignedKey p e = some k) =
            e :: es.filter (fun e => assignedKey p e = some k) := by
          simp [List.filter, hk]
        rw [hfil, stepEvent_phases]
        rcases hph : assignPhase p e.relative_time_ms with _ | ph
        · simp [assignedKey, hph] at hk
        · have hname : ph.name = k := by
            simp [assignedKey, hph] at hk
            exact hk
          dsimp only
          rw [hname, lookupAssoc_updateAssoc_self]
          cases h : lookupAssoc c.phases k <;> simp [h]
      · have hfil : (e :: es).filter (fun e => assignedKey p e = some k) =
            es.filter (fun e => assignedKey p e = some k) := by
          simp [List.filter, hk]
        rw [hfil, stepEvent_phases]
        rcases hph : assignPhase p e.relative_time_ms with _ | ph
        · rfl
        · have hname : ph.name ≠ k := by
            intro he
            exact hk (by simp [assignedKey, hph, he])
          dsimp only
          rw [lookupAssoc_updateAssoc_ne (fun he => hname he.symm)]

theorem computeStats_eq (r : List (String × ℕ)) (kv : String × PhaseData) :
    computeStats r kv = (kv.1, statsify r kv.1 kv.2) := rfl

theorem lookupAssoc_map_computeStats (r : List (String × ℕ)) (l : List (String × PhaseData))
    (k : String) :
    lookupAssoc (l.map (computeStats r)) k = (lookupAssoc l k).map (statsify r k) := by
  induction l with
  | nil => rfl
  | cons kv rest ih =>
      by_cases h : kv.1 = k
      · subst h
        simp [lookupAssoc, computeStats_eq]
      · simp [lookupAssoc, computeStats_eq, h, ih]

theorem keys_initPhases (p : HttpPhases) : (initPhases p).map Prod.fst = phaseKeys := rfl

theorem keys_correlate (p : HttpPhases) (events : List TcpEvent) :
    ((correlate_tcp_to_http_phases p events).phases).map Prod.fst = phaseKeys := by
  cases events with
  | nil => rfl
  | cons e es =>
      unfold correlate_tcp_to_http_phases
      dsimp only
      rw [List.map_map]
      have hc : ∀ r, (Prod.fst ∘ computeStats r) = (Prod.fst : String × PhaseData → String) := by
        intro r
        funext kv
        simp [computeStats_eq]
      rw [hc, foldl_stepEvent_keys]
      rfl

theorem lookupAssoc_correlate (p : HttpPhases) (k : String) (e : TcpEvent)
    (es : List TcpEvent) :
    lookupAssoc ((correlate_tcp_to_http_phases p (e :: es)).phases) k =
      (lookupAssoc (initPhases p) k).map
        (fun d => statsify ((e :: es).foldl (stepEvent p)
            { phases := initPhases p, retransmissions_by_phase := [],
              window_evolution := [], total_bytes := 0,
              status := "unknown" }).retransmissions_by_phase k
          { d with tcp_events :=
              d.tcp_events ++ (e :: es).filter (fun e => assignedKey p e = some k) }) := by
  unfold correlate_tcp_to_http_phases
  dsimp only
  rw [lookupAssoc_map_computeStats, lookupAssoc_foldl_stepEvent]
  cases h : lookupAssoc (initPhases p) k <;> simp [h]

theorem assignPhase_eq_find (p : HttpPhases) (t : ℚ) :
    assignPhase p t = ((phaseBoundaries p).find? (fun b => t ≤ b.2)).map Prod.fst := by
  by_cases h1 : t ≤ tcpEnd p
  · simp [assignPhase, phaseBoundaries, List.find?, h1]
  · by_cases h2 : t ≤ tlsEnd p
    · simp [assignPhase, phaseBoundaries, List.find?, h1, h2]
    · by_cases h3 : t ≤ serverEnd p
      · simp [assignPhase, phaseBoundaries, List.find?, h1, h2, h3]
      · by_cases h4 : t ≤ downloadEnd p <;>
          simp [assignPhase, phaseBoundaries, List.find?, h1, h2, h3, h4]

theorem assignPhase_none_of_late (p : HttpPhases)
    (h2 : 0 ≤ p.tls_handshake_ms.getD 0) (h3 : 0 ≤ p.server_process_ms.getD 0)
    (h4 : 0 ≤ p.download_ms.getD 0) {t : ℚ} (ht : downloadEnd p < t) :
    assignPhase p t = none := by
  have hb1 : tcpEnd p ≤ tlsEnd p := by
    simp only [tlsEnd]
    linarith
  have hb2 : tlsEnd p ≤ serverEnd p := by
    simp only [serverEnd]
    linarith
  have hb3 : serverEnd p ≤ downloadEnd p := by
    simp only [downloadEnd]
    linarith
  have n4 : ¬ t ≤ downloadEnd p := by linarith
  have n3 : ¬ t ≤ serverEnd p := by linarith
  have n2 : ¬ t ≤ tlsEnd p := by linarith
  have n1 : ¬ t ≤ tcpEnd p := by linarith
  simp [assignPhase, n1, n2, n3, n4]

theorem lookupAssoc_initPhases (p : HttpPhases) {k : String} (hk : k ∈ phaseKeys) :
    ∃ d, lookupAssoc (initPhases p) k = some d ∧ d.tcp_events = [] ∧ d.event_count = none := by
  simp only [phaseKeys, List.mem_cons, List.not_mem_nil, or_false] at hk
  rcases hk with h | h | h | h <;> subst h <;>
    exact ⟨_, rfl, rfl, rfl⟩

theorem phaseKeys_nodup : phaseKeys.Nodup := by decide

theorem mem_phases_tcp_events (p : HttpPhases) (e0 : TcpEvent) (es : List TcpEvent)
    {kv : String × PhaseData}
    (hm : kv ∈ (correlate_tcp_to_http_phases p (e0 :: es)).phases) :
    kv.2.tcp_events = (e0 :: es).filter (fun e => assignedKey p e = some kv.1) := by
  have hkeys := keys_correlate p (e0 :: es)
  have hnd : (((correlate_tcp_to_http_phases p (e0 :: es)).phases).map Prod.fst).Nodup := by
    rw [hkeys]; exact phaseKeys_nodup
  have hlk := lookupAssoc_mem_of_nodup hnd hm
  have hk1 : kv.1 ∈ phaseKeys := by
    rw [← hkeys]; exact List.mem_map_of_mem Prod.fst hm
  obtain ⟨d, hd, hdev, -⟩ := lookupAssoc_initPhases p hk1
  rw [lookupAssoc_correlate, hd] at hlk
  simp only [Option.map_some'] at hlk
  have := congrArg PhaseData.tcp_events (Option.some.inj hlk)
  simp only [statsify] at this
  rw [← this, hdev, List.nil_append]

theorem correlate_status (p : HttpPhases) (events : List TcpEvent) :
    (correlate_tcp_to_http_phases p events).status =
      if events = [] then "no_tcp_data" else "success" := by
  cases events <;> simp [correlate_tcp_to_http_phases]

theorem foldl_mkContrib (hops : List MtrHop) (acc : List ContribHop) :
    hops.foldl
      (fun (acc : List ContribHop) (hop : MtrHop) =>
        if 5 < hop.avg_ms.getD 0 then acc ++ [mkContrib hop] else acc) acc =
    acc ++ (hops.filter (fun hop => 5 < hop.avg_ms.getD 0)).map mkContrib := by
  induction hops generalizing acc with
  | nil => simp
  | cons h t ih =>
      by_cases hc : 5 < h.avg_ms.getD 0 <;> simp [List.filter, hc, ih]

/-! ### Claim theorems -/

/-- C1 (counterexample): with no measurement data at all, every layer
quality is "unknown" and `generate_layered_analysis` does NOT return
overall grade "B" — the `all(...)` of line 466 is vacuously true over
zero known layers, so the grade is "A+". -/
theorem claim_C1_counterexample :
    ¬ ((generate_layered_analysis none none none none none).overall_grade = "B") := by
  decide

/-- C1 (amended): if all three layer qualities are unknown (no ping,
capture or HTTP data), `generate_layered_analysis` still returns a valid
analysis record — all layers graded "unknown", no insights — but its
overall grade is "A+" (rule 1 fires vacuously over zero known layers),
not "B". -/
theorem claim_C1 :
    (generate_layered_analysis none none none none none).layer3.quality = "unknown" ∧
    (generate_layered_analysis none none none none none).layer4.quality = "unknown" ∧
    (generate_layered_analysis none none none none none).layer7.quality = "unknown" ∧
    (generate_layered_analysis none none none none none).insights = [] ∧
    (generate_layered_analysis none none none none none).overall_grade = "A+" := by
  decide

/-- C2 (intent, evaluated on the modelled conjunction): with an excellent
L3 (ping success, 0% loss, 10 ms avg) and a degraded L4 (quality score
"poor"), the analysis appends exactly one insight, with layers "L3→L4"
and severity "medium", and the overall grade is "C". The source itself
cannot run this branch: line 442 uses `but` where Python requires `and`,
a SyntaxError. -/
theorem claim_C2 :
    (generate_layered_analysis (some exPing) none none (some exPacket) none).layer3.quality
      = "excellent" ∧
    (generate_layered_analysis (some exPing) none none (some exPacket) none).layer4.quality
      = "degraded" ∧
    (generate_layered_analysis (some exPing) none none (some exPacket) none).insights =
      [{ type := "correlation", layers := "L3→L4", severity := "medium",
         message := "TCP degradation not explained by network path - investigate endpoint congestion" }] ∧
    (generate_layered_analysis (some exPing) none none (some exPacket) none).overall_grade
      = "C" := by
  decide

/-- C6: whenever at least one layer quality is known, the aggregator's
grade chain (line 466-473, the `overallGrade` it computes its
`overall_grade` field with) agrees with the spec's first-match precedence
over the known layers: all known excellent gives "A+", else any known
degraded gives "C", else "B"; in particular excellent/unknown/excellent
gives "A+". -/
theorem claim_C6 :
    (∀ q3 q4 q7 : Quality,
      (q3 ≠ Quality.unknown ∨ q4 ≠ Quality.unknown ∨ q7 ≠ Quality.unknown) →
      overallGrade q3.toStr q4.toStr q7.toStr = overallGradeSpec q3 q4 q7) ∧
    overallGrade "excellent" "unknown" "excellent" = "A+" := by
  constructor
  · decide
  · decide

/-- C6 witness: the precedence theorem applied at the concrete triple
excellent / unknown / excellent. -/
theorem claim_C6_witness :
    overallGrade Quality.excellent.toStr Quality.unknown.toStr Quality.excellent.toStr =
      overallGradeSpec Quality.excellent Quality.unknown Quality.excellent :=
  claim_C6.1 Quality.excellent Quality.unknown Quality.excellent (Or.inl (by decide))

/-- An event at time 0 and an all-absent phase breakdown, for the C4
input. -/
def exEvent0 : TcpEvent := ⟨0, false, none, none⟩

/-- The entirely-missing phase breakdown. -/
def exZeroPhases : HttpPhases := ⟨none, none, none, none, none⟩

/-- C3: for a time-ordered event sequence and non-negative durations, the
phase assignment is exactly first-match search over the cumulative
boundaries (ties resolving to the earlier phase by the ≤ comparison), and
every event beyond the final boundary is dropped from all phase buckets;
with durations 5/10/15/20/50, the event at 12 ms is classified
tcp_handshake, the bucket holds exactly that event (event_count 1), and
the event at 150 ms is counted in no phase. -/
theorem claim_C3 (p : HttpPhases) (events : List TcpEvent)
    (hd1 : 0 ≤ p.dns_ms.getD 0) (hd2 : 0 ≤ p.tcp_handshake_ms.getD 0)
    (hd3 : 0 ≤ p.tls_handshake_ms.getD 0) (hd4 : 0 ≤ p.server_process_ms.getD 0)
    (hd5 : 0 ≤ p.download_ms.getD 0)
    (hord : events.Chain' (fun a b => a.relative_time_ms ≤ b.relative_time_ms)) :
    (∀ t : ℚ, assignPhase p t = ((phaseBoundaries p).find? (fun b => t ≤ b.2)).map Prod.fst)
    ∧ (∀ e ∈ events, downloadEnd p < e.relative_time_ms →
        ∀ kv ∈ (correlate_tcp_to_http_phases p events).phases, e ∉ kv.2.tcp_events)
    ∧ assignPhase exPhases exEvent12.relative_time_ms = some Phase.tcp_handshake
    ∧ (lookupAssoc (correlate_tcp_to_http_phases exPhases [exEvent12, exEvent150]).phases
        "tcp_handshake").map PhaseData.tcp_events = some [exEvent12]
    ∧ ((correlate_tcp_to_http_phases exPhases [exEvent12, exEvent150]).phases).map
        (fun kv => kv.2.event_count) = [some 1, some 0, some 0, some 0] := by
  refine ⟨assignPhase_eq_find p, ?_, ?_, ?_, ?_⟩
  · intro e he hlate kv hkv hmem
    cases events with
    | nil => cases he
    | cons e0 es =>
        rw [mem_phases_tcp_events p e0 es hkv] at hmem
        have hpred := (List.mem_filter.1 hmem).2
        have hnone : assignPhase p e.relative_time_ms = none :=
          assignPhase_none_of_late p hd3 hd4 hd5 hlate
        simp [assignedKey, hnone] at hpred
  · norm_num [assignPhase, exPhases, exEvent12, tcpEnd, dnsEnd]
  · norm_num [correlate_tcp_to_http_phases, lookupAssoc, initPhases, stepEvent, updateAssoc,
      computeStats, statsify, assignPhase, Phase.name, assignedKey, tcpEnd, dnsEnd, tlsEnd,
      serverEnd, downloadEnd, exPhases, exEvent12, exEvent150, List.foldl]
  · norm_num [correlate_tcp_to_http_phases, lookupAssoc, initPhases, stepEvent, updateAssoc,
      computeStats, statsify, assignPhase, Phase.name, assignedKey, tcpEnd, dnsEnd, tlsEnd,
      serverEnd, downloadEnd, exPhases, exEvent12, exEvent150, List.foldl]

/-- C3 witness: the phase-assignment characterization at the worked
example: durations 5/10/15/20/50, event times 12 and 150 ms. -/
theorem claim_C3_witness :
    assignPhase exPhases 12 =
      ((phaseBoundaries exPhases).find? (fun b => (12 : ℚ) ≤ b.2)).map Prod.fst :=
  (claim_C3 exPhases [exEvent12, exEvent150] (by norm_num [exPhases])
    (by norm_num [exPhases]) (by norm_num [exPhases]) (by norm_num [exPhases])
    (by norm_num [exPhases])
    (by norm_num [exEvent12, exEvent150, List.chain'_cons])).1 12

/-- C4 (counterexample): an entirely-missing phase breakdown does not
give status "no_data" — with one event at time 0 the correlator returns
status "success" (there is no "no_data" status in the code at all). -/
theorem claim_C4_counterexample :
    ¬ ((correlate_tcp_to_http_phases exZeroPhases [exEvent0]).status = "no_data") := by
  decide

/-- C4 (amended): with an entirely zero-or-missing phase breakdown the
correlator returns status "success" when events exist and "no_tcp_data"
when none do (never "no_data"), and no division by zero occurs: any phase
whose event_count is 0 has retransmission_rate 0. -/
theorem claim_C4 (p : HttpPhases)
    (hz : p.dns_ms.getD 0 = 0 ∧ p.tcp_handshake_ms.getD 0 = 0 ∧
      p.tls_handshake_ms.getD 0 = 0 ∧ p.server_process_ms.getD 0 = 0 ∧
      p.download_ms.getD 0 = 0)
    (events : List TcpEvent) :
    (correlate_tcp_to_http_phases p events).status =
      (if events = [] then "no_tcp_data" else "success")
    ∧ ∀ kv ∈ (correlate_tcp_to_http_phases p events).phases,
        kv.2.event_count = some 0 → kv.2.retransmission_rate = some 0 := by
  refine ⟨correlate_status p events, ?_⟩
  intro kv hkv hcount
  cases events with
  | nil =>
      have hkv' : kv ∈ initPhases p := hkv
      simp only [initPhases, List.mem_cons, List.not_mem_nil, or_false] at hkv'
      rcases hkv' with h | h | h | h <;> subst h <;> simp at hcount
  | cons e0 es =>
      have : kv ∈ (((e0 :: es).foldl (stepEvent p)
          { phases := initPhases p, retransmissions_by_phase := [],
            window_evolution := [], total_bytes := 0,
            status := "unknown" }).phases).map
            (computeStats ((e0 :: es).foldl (stepEvent p)
              { phases := initPhases p, retransmissions_by_phase := [],
                window_evolution := [], total_bytes := 0,
                status := "unknown" }).retransmissions_by_phase) := hkv
      obtain ⟨y, -, hy⟩ := List.mem_map.1 this
      rw [computeStats_eq] at hy
      subst hy
      simp only [statsify, Option.some.injEq] at hcount ⊢
      have hlen : y.2.tcp_events.length = 0 := by
        simpa using hcount
      simp [hlen]

/-- C4 witness: the amended statement at the all-missing breakdown with
one event at time 0. -/
theorem claim_C4_witness :
    (correlate_tcp_to_http_phases exZeroPhases [exEvent0]).status =
      (if ([exEvent0] : List TcpEvent) = [] then "no_tcp_data" else "success") :=
  (claim_C4 exZeroPhases (by decide) [exEvent0]).1

/-- C10: the phases mapping of every correlator result has exactly the
four keys tcp_handshake, tls_negotiation, server_processing and
content_download — no DNS bucket — and every event whose time is at most
dns_ms + tcp_handshake_ms (events during the DNS window included) lands
in the tcp_handshake bucket. -/
theorem claim_C10 :
    (∀ (p : HttpPhases) (events : List TcpEvent),
      ((correlate_tcp_to_http_phases p events).phases).map Prod.fst = phaseKeys)
    ∧ "dns_lookup" ∉ phaseKeys ∧ "dns" ∉ phaseKeys
    ∧ (∀ (p : HttpPhases) (events : List TcpEvent) (e : TcpEvent), e ∈ events →
        e.relative_time_ms ≤ p.dns_ms.getD 0 + p.tcp_handshake_ms.getD 0 →
        ∃ d, lookupAssoc (correlate_tcp_to_http_phases p events).phases "tcp_handshake"
            = some d ∧ e ∈ d.tcp_events) := by
  refine ⟨keys_correlate, by decide, by decide, ?_⟩
  intro p events e he hle
  cases events with
  | nil => cases he
  | cons e0 es =>
      have hk : ("tcp_handshake" : String) ∈ phaseKeys := by decide
      obtain ⟨d0, hd0, hdev, -⟩ := lookupAssoc_initPhases p hk
      rw [lookupAssoc_correlate, hd0]
      refine ⟨_, rfl, ?_⟩
      have hassign : assignPhase p e.relative_time_ms = some Phase.tcp_handshake := by
        have hb : e.relative_time_ms ≤ tcpEnd p := by
          simpa [tcpEnd, dnsEnd] using hle
        simp [assignPhase, hb]
      have hpred : assignedKey p e = some "tcp_handshake" := by
        simp [assignedKey, hassign, Phase.name]
      simp only [statsify]
      rw [hdev, List.nil_append]
      exact List.mem_filter.2 ⟨he, by simp [hpred]⟩

/-- C10 witness: the 12 ms event of the worked example is inside the
DNS+TCP window (5 + 10 = 15 ms) and lands in the tcp_handshake bucket. -/
theorem claim_C10_witness :
    ∃ d, lookupAssoc (correlate_tcp_to_http_phases exPhases [exEvent12]).phases
        "tcp_handshake" = some d ∧ exEvent12 ∈ d.tcp_events :=
  claim_C10.2.2.2 exPhases [exEvent12] exEvent12 (by simp)
    (by norm_num [exPhases, exEvent12])

theorem roundHalfEven_intCast (n : ℤ) : roundHalfEven (n : ℚ) = n := by
  unfold roundHalfEven
  norm_num

theorem roundTo_eval (d : ℕ) (x : ℚ) (n : ℤ) (h : x * 10 ^ d = (n : ℚ)) :
    roundTo d x = (n : ℚ) / 10 ^ d := by
  rw [roundTo, h, roundHalfEven_intCast]

theorem roundHalfEven_of_lt (y : ℚ) (hlt : y - ⌊y⌋ < 1 / 2) : roundHalfEven y = ⌊y⌋ := by
  simp only [roundHalfEven]
  rw [if_pos hlt]

/-- C5 (amended): for a non-empty hop list the correlator returns
predicted RTT = round₂(last hop avg × 2), variance = round₂(actual −
last×2), variance percentage = round₁(variance/predicted×100) when the
unrounded predicted RTT is positive and 0 otherwise, contributing hops =
exactly the hops with avg > 5 ms in original order, and status
"success"; the empty list gives all-zero variance fields and status
"no_mtr_data". At the worked example (avgs 1/3/8, actual 20) the rounding
is exact: predicted 16, variance 4, variance 25.0%, one contributing
hop. -/
theorem claim_C5 :
    (∀ (hops : List MtrHop) (last : MtrHop) (actual : ℚ), hops.getLast? = some last →
      (correlate_mtr_to_tcp hops actual).mtr_predicted_rtt
          = roundTo 2 (last.avg_ms.getD 0 * 2) ∧
      (correlate_mtr_to_tcp hops actual).tcp_actual_rtt = actual ∧
      (correlate_mtr_to_tcp hops actual).variance_ms
          = roundTo 2 (actual - last.avg_ms.getD 0 * 2) ∧
      (correlate_mtr_to_tcp hops actual).variance_percentage
          = (if 0 < last.avg_ms.getD 0 * 2 then
              roundTo 1 (roundTo 2 (actual - last.avg_ms.getD 0 * 2)
                / (last.avg_ms.getD 0 * 2) * 100)
            else 0) ∧
      (correlate_mtr_to_tcp hops actual).contributing_hops
          = (hops.filter (fun h => 5 < h.avg_ms.getD 0)).map mkContrib ∧
      (correlate_mtr_to_tcp hops actual).status = "success")
    ∧ (∀ actual : ℚ, correlate_mtr_to_tcp [] actual =
        { mtr_predicted_rtt := 0, tcp_actual_rtt := actual, variance_ms := 0,
          variance_percentage := 0, contributing_hops := [], status := "no_mtr_data" })
    ∧ (correlate_mtr_to_tcp exHops 20).mtr_predicted_rtt = 16
    ∧ (correlate_mtr_to_tcp exHops 20).variance_ms = 4
    ∧ (correlate_mtr_to_tcp exHops 20).variance_percentage = 25
    ∧ (correlate_mtr_to_tcp exHops 20).contributing_hops
        = [mkContrib ⟨some 3, some "10.0.0.3", some 8, some 0⟩] := by
  have main : ∀ (hops : List MtrHop) (last : MtrHop) (actual : ℚ),
      hops.getLast? = some last →
      (correlate_mtr_to_tcp hops actual).mtr_predicted_rtt
          = roundTo 2 (last.avg_ms.getD 0 * 2) ∧
      (correlate_mtr_to_tcp hops actual).tcp_actual_rtt = actual ∧
      (correlate_mtr_to_tcp hops actual).variance_ms
          = roundTo 2 (actual - last.avg_ms.getD 0 * 2) ∧
      (correlate_mtr_to_tcp hops actual).variance_percentage
          = (if 0 < last.avg_ms.getD 0 * 2 then
              roundTo 1 (roundTo 2 (actual - last.avg_ms.getD 0 * 2)
                / (last.avg_ms.getD 0 * 2) * 100)
            else 0) ∧
      (correlate_mtr_to_tcp hops actual).contributing_hops
          = (hops.filter (fun h => 5 < h.avg_ms.getD 0)).map mkContrib ∧
      (correlate_mtr_to_tcp hops actual).status = "success" := by
    intro hops last actual h
    unfold correlate_mtr_to_tcp
    rw [h]
    dsimp only
    rw [foldl_mkContrib]
    by_cases hp : 0 < last.avg_ms.getD 0 * 2 <;> simp [hp]
  have hlast : exHops.getLast? = some ⟨some 3, some "10.0.0.3", some 8, some 0⟩ := rfl
  have hex := main exHops ⟨some 3, some "10.0.0.3", some 8, some 0⟩ 20 hlast
  refine ⟨main, fun actual => rfl, ?_, ?_, ?_, ?_⟩
  · rw [hex.1]
    rw [roundTo_eval 2 _ 1600 (by norm_num)]
    norm_num
  · rw [hex.2.2.1]
    rw [roundTo_eval 2 _ 400 (by norm_num)]
    norm_num
  · rw [hex.2.2.2.1]
    rw [if_pos (by norm_num)]
    rw [roundTo_eval 2 _ 400 (by norm_num)]
    rw [roundTo_eval 1 _ 250 (by norm_num)]
    norm_num
  · rw [hex.2.2.2.2.1]
    norm_num [exHops, List.filter]

/-- C5 witness: the amended formulas applied at the worked example
(hops with averages 1, 3, 8 ms; observed handshake 20 ms). -/
theorem claim_C5_witness :
    (correlate_mtr_to_tcp exHops 20).status = "success" :=
  (claim_C5.1 exHops ⟨some 3, some "10.0.0.3", some 8, some 0⟩ 20 rfl).2.2.2.2.2

/-- C5 (counterexample): the stored predicted RTT is NOT always the last
hop's average × 2 — for a last hop of 0.001 ms the doubled value 0.002 is
rounded to two decimals, storing 0. -/
theorem claim_C5_counterexample :
    ¬ ((correlate_mtr_to_tcp [exTinyHop] 0).mtr_predicted_rtt
        = exTinyHop.avg_ms.getD 0 * 2) := by
  have hlast : ([exTinyHop] : List MtrHop).getLast? = some exTinyHop := rfl
  have h : (correlate_mtr_to_tcp [exTinyHop] 0).mtr_predicted_rtt
      = roundTo 2 (exTinyHop.avg_ms.getD 0 * 2) := by
    unfold correlate_mtr_to_tcp
    rw [hlast]
    dsimp only
    split <;> rfl
  have h15 : exTinyHop.avg_ms.getD 0 * 2 = (1 : ℚ) / 500 := by
    norm_num [exTinyHop]
  have hfl : ⌊((1 : ℚ) / 500 * 10 ^ 2)⌋ = 0 := by
    rw [Int.floor_eq_iff] <;> norm_num
  have hr : roundTo 2 ((1 : ℚ) / 500) = 0 := by
    rw [roundTo, roundHalfEven_of_lt _ (by rw [hfl]; norm_num), hfl]
    norm_num
  rw [h, h15, hr]
  norm_num

/-- C7 (counterexample): an output matching "0 packets transmitted, 0
received" leaves packets_sent = 0 and loss_pct at its 100.0 default, not
0 as claimed. -/
theorem claim_C7_counterexample :
    ¬ ((parse_ping_output (some (0, 0)) none).packet_loss_pct = 0) := by
  decide

/-- C7 (amended): loss_pct = (sent − received)/sent × 100 whenever the
parsed sent count is positive; when packets_sent is 0 (no match, or a
matched zero count) loss_pct keeps its 100.0 default; for valid inputs
(received ≤ sent) loss_pct always lies in [0, 100]. -/
theorem claim_C7 (pm : Option (ℕ × ℕ)) (rm : Option (ℚ × ℚ × ℚ × ℚ)) :
    (∀ sent recv : ℕ, pm = some (sent, recv) → 0 < sent →
      (parse_ping_output pm rm).packet_loss_pct = ((sent : ℚ) - (recv : ℚ)) / (sent : ℚ) * 100)
    ∧ ((parse_ping_output pm rm).packets_sent = 0 →
        (parse_ping_output pm rm).packet_loss_pct = 100)
    ∧ (∀ sent recv : ℕ, pm = some (sent, recv) → recv ≤ sent →
        0 ≤ (parse_ping_output pm rm).packet_loss_pct ∧
        (parse_ping_output pm rm).packet_loss_pct ≤ 100) := by
  refine ⟨?_, ?_, ?_⟩
  · intro sent recv hpm hpos
    subst hpm
    rcases rm with _ | ⟨mn, av, mx, sd⟩ <;> simp [parse_ping_output, hpos]
  · intro h0
    rcases pm with _ | ⟨sent, recv⟩
    · rcases rm with _ | ⟨mn, av, mx, sd⟩ <;> rfl
    · by_cases hp : 0 < sent
      · rcases rm with _ | ⟨mn, av, mx, sd⟩ <;>
          simp [parse_ping_output, hp] at h0 <;> omega
      · rcases rm with _ | ⟨mn, av, mx, sd⟩ <;> simp [parse_ping_output, hp]
  · intro sent recv hpm hle
    subst hpm
    by_cases hp : 0 < sent
    · have hs : (0 : ℚ) < (sent : ℚ) := by exact_mod_cast hp
      have hr0 : (0 : ℚ) ≤ (recv : ℚ) := by positivity
      have hr : (recv : ℚ) ≤ (sent : ℚ) := by exact_mod_cast hle
      have hloss : (parse_ping_output (some (sent, recv)) rm).packet_loss_pct
          = ((sent : ℚ) - (recv : ℚ)) / (sent : ℚ) * 100 := by
        rcases rm with _ | ⟨mn, av, mx, sd⟩ <;> simp [parse_ping_output, hp]
      rw [hloss]
      constructor
      · apply mul_nonneg (div_nonneg (by linarith) (le_of_lt hs)) (by norm_num)
      · rw [div_mul_eq_mul_div, div_le_iff₀ hs]
        nlinarith
    · have hloss : (parse_ping_output (some (sent, recv)) rm).packet_loss_pct = 100 := by
        rcases rm with _ | ⟨mn, av, mx, sd⟩ <;> simp [parse_ping_output, hp]
      rw [hloss]
      norm_num

/-- C7 witness: the loss formula at 4 packets sent, 3 received (25%
loss, inside [0,100]). -/
theorem claim_C7_witness :
    (parse_ping_output (some (4, 3)) none).packet_loss_pct
      = ((4 : ℚ) - (3 : ℚ)) / (4 : ℚ) * 100 :=
  (claim_C7 (some (4, 3)) none).1 4 3 rfl (by norm_num)

/-- C8 (counterexample): a negative latency is NOT clamped to the worst
bucket — grade_latency (−1) "same-region" returns "A+", not "D". -/
theorem claim_C8_counterexample :
    ¬ ((PerformanceGrader.grade_latency (-1) "same-region").1 = "D") := by
  decide

/-- C8 (amended): grade_latency is total (never fails), but a negative
latency falls into the FIRST threshold bucket of every distance class and
so receives the best grade "A+"; only an above-range latency receives the
worst grade "D". -/
theorem claim_C8 (latency_ms : ℚ) (h : latency_ms < 0) (distance : String) :
    (PerformanceGrader.grade_latency latency_ms distance).1 = "A+" := by
  unfold PerformanceGrader.grade_latency
  by_cases h1 : distance = "same-region"
  · have : latency_ms < 2 := by linarith
    simp [h1, this]
  · by_cases h2 : distance = "cross-country"
    · have : latency_ms < 50 := by linarith
      simp [h1, h2, this]
    · have : latency_ms < 20 := by linarith
      simp [h1, h2, this]

/-- C8 witness: the amended statement at latency −1 ms, same-region. -/
theorem claim_C8_witness :
    (PerformanceGrader.grade_latency (-1) "same-region").1 = "A+" :=
  claim_C8 (-1) (by norm_num) "same-region"

/-- C9: for every non-negative latency and distance class, the grade is
the first-match lookup in the spec's upper-bound-exclusive threshold
table (same-region <2/<5/<15/<30, regional <20/<40/<70/<100,
cross-country <50/<70/<100/<150, else "D"); in particular 1.9 ms
same-region grades "A+" and 2.0 ms grades "A". -/
theorem claim_C9 :
    (∀ (latency_ms : ℚ) (distance : String), 0 ≤ latency_ms →
      (PerformanceGrader.grade_latency latency_ms distance).1
        = gradeLatencySpec latency_ms distance)
    ∧ (PerformanceGrader.grade_latency 1.9 "same-region").1 = "A+"
    ∧ (PerformanceGrader.grade_latency 2 "same-region").1 = "A" := by
  refine ⟨?_, ?_, ?_⟩
  · intro l d _
    by_cases h1 : d = "same-region"
    · by_cases c1 : l < 2 <;> by_cases c2 : l < 5 <;> by_cases c3 : l < 15 <;>
        by_cases c4 : l < 30 <;>
        simp [PerformanceGrader.grade_latency, gradeLatencySpec, latencyTable,
          List.find?, h1, c1, c2, c3, c4]
    · by_cases h2 : d = "cross-country"
      · by_cases c1 : l < 50 <;> by_cases c2 : l < 70 <;> by_cases c3 : l < 100 <;>
          by_cases c4 : l < 150 <;>
          simp [PerformanceGrader.grade_latency, gradeLatencySpec, latencyTable,
            List.find?, h1, h2, c1, c2, c3, c4]
      · by_cases c1 : l < 20 <;> by_cases c2 : l < 40 <;> by_cases c3 : l < 70 <;>
          by_cases c4 : l < 100 <;>
          simp [PerformanceGrader.grade_latency, gradeLatencySpec, latencyTable,
            List.find?, h1, h2, c1, c2, c3, c4]
  · norm_num [PerformanceGrader.grade_latency]
  · norm_num [PerformanceGrader.grade_latency]

/-- C9 witness: the threshold-table refinement applied at the boundary
latency 2 ms, same-region. -/
theorem claim_C9_witness :
    (PerformanceGrader.grade_latency 2 "same-region").1
      = gradeLatencySpec 2 "same-region" :=
  claim_C9.1 2 "same-region" (by norm_num)

end CNF
